import Mathlib

/-!
Shallow embedding of the hungry_shift_helper repository
(`src/hungry/shift.py`, `src/hungry/timeslot.py`, `src/hungry/Storage.py`,
`src/hungry/hungryAPI.py`, `src/run.py`), together with theorems settling
the specification claims about the shift-matching and deduplication engine.

Python `datetime.datetime` objects are naive here (no tzinfo), exactly as the
repository constructs them (`strptime` / `fromisoformat` on zone-free strings).
A datetime is modelled by its seven stored components, mirroring CPython's
internal representation; `toordinal`, `weekday`, `time()` and timedelta
subtraction are modelled by the same arithmetic CPython uses.
-/

set_option autoImplicit false

namespace HungryShift

/-- Model of Python `datetime.time`: hour, minute, second, microsecond.
CPython validates `0 ≤ hour < 24`, `0 ≤ minute < 60`, `0 ≤ second < 60`,
`0 ≤ microsecond < 1000000` at construction; `PyTime.valid` records this. -/
structure PyTime where
  hour : Nat
  minute : Nat
  second : Nat
  microsecond : Nat
deriving DecidableEq, Repr

def PyTime.valid (t : PyTime) : Prop :=
  t.hour < 24 ∧ t.minute < 60 ∧ t.second < 60 ∧ t.microsecond < 1000000

instance (t : PyTime) : Decidable t.valid := by
  unfold PyTime.valid; infer_instance

/-- Microseconds since midnight.  Python compares `time` objects
lexicographically on `(hour, minute, second, microsecond)`; for times
satisfying the constructor bounds this coincides with comparing `toUs`. -/
def PyTime.toUs (t : PyTime) : Nat :=
  ((t.hour * 60 + t.minute) * 60 + t.second) * 1000000 + t.microsecond

/-- Model of Python naive `datetime.datetime`: the seven stored components. -/
structure PyDateTime where
  year : Nat
  month : Nat
  day : Nat
  hour : Nat
  minute : Nat
  second : Nat
  microsecond : Nat
deriving DecidableEq, Repr

/-- CPython `datetime._is_leap`. -/
def isLeapYear (y : Nat) : Bool :=
  y % 4 == 0 && (y % 100 != 0 || y % 400 == 0)

/-- CPython `datetime._days_in_month` (month 1..12). -/
def daysInMonth (y m : Nat) : Nat :=
  if m = 2 then (if isLeapYear y then 29 else 28)
  else if m = 4 ∨ m = 6 ∨ m = 9 ∨ m = 11 then 30
  else 31

/-- Days in months `1..m-1` of year `y` (CPython `_days_before_month`). -/
def daysBeforeMonth (y : Nat) : Nat → Nat
  | 0 => 0
  | 1 => 0
  | m + 1 => daysBeforeMonth y m + daysInMonth y m

/-- Days in all years before year `y` (CPython `_days_before_year`). -/
def daysBeforeYear (y : Nat) : Nat :=
  let n := y - 1
  n * 365 + n / 4 - n / 100 + n / 400

/-- CPython `date.toordinal`: day 1 is January 1 of year 1. -/
def PyDateTime.toordinal (d : PyDateTime) : Nat :=
  daysBeforeYear d.year + daysBeforeMonth d.year d.month + d.day

/-- CPython `date.weekday`: Monday = 0; ordinal 1 (0001-01-01) is a Monday. -/
def PyDateTime.weekday (d : PyDateTime) : Int :=
  ((d.toordinal + 6) % 7 : Nat)

/-- Python `datetime.time()`: the time-of-day components. -/
def PyDateTime.time (d : PyDateTime) : PyTime :=
  ⟨d.hour, d.minute, d.second, d.microsecond⟩

def PyDateTime.valid (d : PyDateTime) : Prop :=
  1 ≤ d.year ∧ d.year ≤ 9999 ∧ 1 ≤ d.month ∧ d.month ≤ 12 ∧
  1 ≤ d.day ∧ d.day ≤ daysInMonth d.year d.month ∧
  d.hour < 24 ∧ d.minute < 60 ∧ d.second < 60 ∧ d.microsecond < 1000000

instance (d : PyDateTime) : Decidable d.valid := by
  unfold PyDateTime.valid; infer_instance

def usPerDay : Nat := 86400 * 1000000

/-- Microseconds from 0001-01-01 00:00:00 (the absolute instant a naive
datetime denotes, used to model datetime subtraction). -/
def PyDateTime.absUs (d : PyDateTime) : Nat :=
  d.toordinal * usPerDay + d.time.toUs

/-- The `.seconds` component of the Python timedelta `e - s`.
CPython normalizes a timedelta to `(days, seconds, microseconds)` with
`0 ≤ seconds < 86400`, `0 ≤ microseconds < 10^6`:  for total offset `Δ`
microseconds this is `(Δ floordiv 10^6) mod 86400`.  Python floor division
and modulus with a positive divisor coincide with the Euclidean `/` and `%`
of `Int`. -/
def tdSeconds (e s : PyDateTime) : Int :=
  ((e.absUs : Int) - (s.absUs : Int)) / 1000000 % 86400

/-! ## `src/hungry/shift.py` -/

/-- `Shift.__init__` (src/hungry/shift.py lines 21-29). -/
structure Shift where
  id : Int
  start : PyDateTime
  «end» : PyDateTime
  status : String
  time_zone : String
  starting_point_id : Int
  starting_point_name : String
deriving DecidableEq, Repr

/-- `Shift.__eq__` (src/hungry/shift.py lines 32-35), on the Shift/Shift case:
`self.id == other.id`. -/
def Shift.eq (a b : Shift) : Bool :=
  a.id == b.id

/-- CPython `hash` of an `int`: reduction modulo `2^61 - 1` preserving sign,
with `-1` mapped to `-2`. -/
def pyHashInt (n : Int) : Int :=
  let m : Int := 2 ^ 61 - 1
  let r : Int := if 0 ≤ n then n % m else -((-n) % m)
  if r = -1 then -2 else r

/-- `Shift.__hash__` (src/hungry/shift.py lines 61-62): `hash(self.id)`. -/
def Shift.pyHash (s : Shift) : Int :=
  pyHashInt s.id

/-- Python `shift in xs` for a list/set `xs` of Shifts: membership is decided
with `Shift.__eq__`, hence by `id`. -/
def shiftMem (xs : List Shift) (s : Shift) : Bool :=
  xs.any (fun x => Shift.eq s x)

/-! ## `src/hungry/timeslot.py` -/

/-- `RecurringTimeslot.__init__` (src/hungry/timeslot.py lines 17-21).
`recurring_days` holds Python ints (weekday numbers, Monday = 0). -/
structure RecurringTimeslot where
  recurring_days : List Int
  start : PyTime
  «end» : PyTime
  min_minutes : Int
deriving DecidableEq, Repr

/-- `RecurringTimeslot.is_valid_shift` (src/hungry/timeslot.py lines 61-73).

* day check: `start.weekday() not in self.recurring_days`;
* clock check: `start.time() < self.start or end.time() > self.end`
  (Python `time` comparison, modelled on microseconds-of-day);
* duration check: `(end - start).seconds / 60 < self.min_minutes` — true
  division of the int `seconds` (0 ≤ seconds ≤ 86399) by 60, compared with the
  int `min_minutes`.  The real quotient satisfies `a / 60 < m ↔ a < 60 * m`,
  and at these magnitudes the float rounding of `a / 60` cannot move the
  quotient across the integer `m` (gap ≥ 1/60 versus ulp ≈ 2⁻⁴³), so the check
  is embedded as the exactly equivalent integer comparison `a < 60 * m`
  (see theorem `duration_check_eq_rat` below). -/
def RecurringTimeslot.is_valid_shift (ts : RecurringTimeslot)
    (start «end» : PyDateTime) : Bool :=
  if ¬ (ts.recurring_days.contains start.weekday) then
    false
  else if start.time.toUs < ts.start.toUs ∨ «end».time.toUs > ts.«end».toUs then
    false
  else if tdSeconds «end» start < 60 * ts.min_minutes then
    false
  else
    true

/-! ## `src/run.py`: `get_eternal_timeslot` (lines 126-136) -/

/-- `get_eternal_timeslot` (src/run.py lines 126-136): all seven weekdays,
`strptime("00:00", "%H:%M").time()` = 00:00:00.000000,
`strptime("23:59", "%H:%M").time()` = 23:59:00.000000, minimum length 0. -/
def get_eternal_timeslot : RecurringTimeslot :=
  { recurring_days := [0, 1, 2, 3, 4, 5, 6]
    start := ⟨0, 0, 0, 0⟩
    «end» := ⟨23, 59, 0, 0⟩
    min_minutes := 0 }

/-! ## `src/run.py`: deduplication (line 78) -/

/-- run.py line 78:
`new_shifts = [shift for shift in shifts if shift not in saved_shifts]`.
List/set membership uses `Shift.__eq__`, i.e. identity on `id`. -/
def diffNew (current previous : List Shift) : List Shift :=
  current.filter (fun s => ! shiftMem previous s)

/-- A list of Shifts carries Python-set semantics by identity: two members
with the same `id` are the same element.  Every collection the engine diffs
or filters comes from a Python `set`, which guarantees this. -/
def idInj (l : List Shift) : Prop :=
  ∀ x ∈ l, ∀ y ∈ l, x.id = y.id → x = y

instance (l : List Shift) : Decidable (idInj l) := by
  unfold idInj; infer_instance

/-! ## `src/run.py`: matching loop (lines 85-89)

`valid_shifts` is a Python `set()`; `set.add` inserts unless an element equal
under `Shift.__eq__` (same `id`) is already present. -/

/-- `set.add` on a set of Shifts, with the set represented as the list of its
elements in insertion order. -/
def setAdd (xs : List Shift) (s : Shift) : List Shift :=
  if shiftMem xs s then xs else xs ++ [s]

/-- run.py lines 85-89:
```text
valid_shifts = set()
for timeslot in storage.recurring_timeslots:
    for shift in new_shifts:
        if timeslot.is_valid_shift(shift.start, shift.end):
            valid_shifts.add(shift)
``` -/
def filterValid (windows : List RecurringTimeslot) (candidates : List Shift) :
    List Shift :=
  windows.foldl
    (fun acc w =>
      candidates.foldl
        (fun acc2 s =>
          if w.is_valid_shift s.start s.«end» then setAdd acc2 s else acc2)
        acc)
    []

/-! ## Serialization (`src/hungry/shift.py` lines 64-87,
`src/hungry/timeslot.py` lines 93-111)

A Python string produced by a fixed format is modelled by the tuple of fields
the format renders: two such strings are equal exactly when their rendered
fields are, so nothing is abstracted away by working with the fields. -/

/-- The output of naive `datetime.isoformat()`
(`YYYY-MM-DDTHH:MM:SS[.ffffff]`, the fraction omitted when the microsecond
field is zero — so the string determines and is determined by the seven
components). -/
structure IsoDateTimeString where
  year : Nat
  month : Nat
  day : Nat
  hour : Nat
  minute : Nat
  second : Nat
  microsecond : Nat
deriving DecidableEq, Repr

def PyDateTime.isoformat (d : PyDateTime) : IsoDateTimeString :=
  ⟨d.year, d.month, d.day, d.hour, d.minute, d.second, d.microsecond⟩

/-- `datetime.fromisoformat` applied to the output format above. -/
def fromisoformat (s : IsoDateTimeString) : PyDateTime :=
  ⟨s.year, s.month, s.day, s.hour, s.minute, s.second, s.microsecond⟩

/-- The output of `time.strftime("%H:%M")`: only the zero-padded hour and
minute are rendered; seconds and microseconds do not appear. -/
structure HMString where
  hour : Nat
  minute : Nat
deriving DecidableEq, Repr

def PyTime.strftimeHM (t : PyTime) : HMString :=
  ⟨t.hour, t.minute⟩

/-- `datetime.strptime(s, "%H:%M").time()`: unparsed fields default to zero. -/
def strptimeHM (s : HMString) : PyTime :=
  ⟨s.hour, s.minute, 0, 0⟩

/-- The dictionary built by `Shift.serialize` (src/hungry/shift.py 64-74). -/
structure SerializedShift where
  id : Int
  start : IsoDateTimeString
  «end» : IsoDateTimeString
  status : String
  time_zone : String
  starting_point_id : Int
  starting_point_name : String
deriving DecidableEq, Repr

def Shift.serialize (s : Shift) : SerializedShift :=
  { id := s.id
    start := s.start.isoformat
    «end» := s.«end».isoformat
    status := s.status
    time_zone := s.time_zone
    starting_point_id := s.starting_point_id
    starting_point_name := s.starting_point_name }

/-- `Shift.deserialize` (src/hungry/shift.py 76-87). -/
def Shift.deserialize (j : SerializedShift) : Shift :=
  { id := j.id
    start := fromisoformat j.start
    «end» := fromisoformat j.«end»
    status := j.status
    time_zone := j.time_zone
    starting_point_id := j.starting_point_id
    starting_point_name := j.starting_point_name }

/-- The dictionary built by `RecurringTimeslot.serialize`
(src/hungry/timeslot.py 93-99): clock bounds via `strftime("%H:%M")`. -/
structure SerializedTimeslot where
  start : HMString
  «end» : HMString
  days : List Int
  min_minutes : Int
deriving DecidableEq, Repr

def RecurringTimeslot.serialize (ts : RecurringTimeslot) : SerializedTimeslot :=
  { start := ts.start.strftimeHM
    «end» := ts.«end».strftimeHM
    days := ts.recurring_days
    min_minutes := ts.min_minutes }

/-- `RecurringTimeslot.deserialize` (src/hungry/timeslot.py 104-111):
`datetime.strptime(..., "%H:%M").time()` on both clock bounds. -/
def RecurringTimeslot.deserialize (j : SerializedTimeslot) : RecurringTimeslot :=
  { recurring_days := j.days
    start := strptimeHM j.start
    «end» := strptimeHM j.«end»
    min_minutes := j.min_minutes }

/-! ## Python exceptions surfaced by the embedded code -/

inductive PyError where
  /-- `AttributeError`: assignment to a property that defines no setter. -/
  | attributeError (msg : String)
  /-- `KeyError` from a dictionary lookup. -/
  | keyError (key : String)
  /-- `raise Exception(msg)` and other exception values. -/
  | exception (msg : String)
deriving DecidableEq, Repr

/-! ## `src/hungry/hungryAPI.py`: `take_shift` (lines 127-139) and the
auto-claim loop of `src/run.py` (lines 93-100) -/

/-- The HTTP claim call `take_shift` dispatches for a shift. -/
inductive ClaimAction where
  | takeSwap (id : Int)
  | takeUnassigned (id : Int)
deriving DecidableEq, Repr

/-- `HungryAPI.take_shift` (src/hungry/hungryAPI.py 127-139): dispatch on
`shift.status`; any status other than `"PENDING"` / `"UNASSIGNED"` raises
`Exception("Shift is not pending or unassigned.Shift status is " + status)`. -/
def take_shift (s : Shift) : Except PyError ClaimAction :=
  if s.status == "PENDING" then
    Except.ok (ClaimAction.takeSwap s.id)
  else if s.status == "UNASSIGNED" then
    Except.ok (ClaimAction.takeUnassigned s.id)
  else
    Except.error (PyError.exception
      ("Shift is not pending or unassigned.Shift status is " ++ s.status))

/-- Whether `take_shift` succeeds for a shift. -/
def claimOk (s : Shift) : Bool :=
  match take_shift s with
  | Except.ok _ => true
  | Except.error _ => false

/-- run.py lines 93-100:
```text
if args.auto_take:
    for shift in valid_shifts:
        hungry.take_shift(shift)
```
There is no try/except inside the loop, so the first exception raised by
`take_shift` propagates to the cycle-level handler (run.py line 113) and the
loop body never runs for the remaining shifts.  Returns the list of shifts for
which a claim was attempted, and the propagated exception if one was raised. -/
def autoClaimAttempts : List Shift → List Shift × Option PyError
  | [] => ([], none)
  | s :: rest =>
    match take_shift s with
    | Except.ok _ =>
      let r := autoClaimAttempts rest
      (s :: r.1, r.2)
    | Except.error e => ([s], some e)

/-! ## `src/hungry/Storage.py`: loads (lines 126-163)

The JSON content of a backing file is modelled by a small value type covering
the shapes the loaders touch.  A string holding an ISO timestamp or an
`"HH:MM"` clock is modelled by its parsed fields, as for serialization. -/

inductive JsonPrim where
  | int (n : Int)
  | str (s : String)
  /-- a string in ISO-8601 datetime format -/
  | iso (d : IsoDateTimeString)
  /-- a string in `"HH:MM"` format -/
  | hm (t : HMString)
  /-- a JSON array of integers (the `days` field) -/
  | intList (ns : List Int)
deriving DecidableEq, Repr

/-- A JSON object: association list of keys to values. -/
abbrev JsonObj := List (String × JsonPrim)

/-- `obj[key]` on a Python dict: `KeyError` when the key is absent. -/
def JsonObj.get (o : JsonObj) (k : String) : Except PyError JsonPrim :=
  match o.find? (fun p => p.1 == k) with
  | some p => Except.ok p.2
  | none => Except.error (PyError.keyError k)

/-- `datetime.fromisoformat` applied to a JSON value: succeeds only on a
string in ISO format (`ValueError` on other strings, `TypeError` on
non-strings). -/
def fromisoformatJson : JsonPrim → Except PyError PyDateTime
  | JsonPrim.iso d => Except.ok (fromisoformat d)
  | JsonPrim.str _ =>
    Except.error (PyError.exception "ValueError: invalid isoformat string")
  | JsonPrim.hm _ =>
    Except.error (PyError.exception "ValueError: invalid isoformat string")
  | _ =>
    Except.error (PyError.exception "TypeError: fromisoformat argument must be str")

/-- `datetime.strptime(x, "%H:%M").time()` applied to a JSON value:
succeeds only on an `"HH:MM"` string whose fields are a valid clock time
(`ValueError` otherwise, `TypeError` on non-strings). -/
def strptimeHMJson : JsonPrim → Except PyError PyTime
  | JsonPrim.hm t =>
    if t.hour < 24 ∧ t.minute < 60 then Except.ok (strptimeHM t)
    else Except.error (PyError.exception "ValueError: time data does not match format")
  | JsonPrim.str _ =>
    Except.error (PyError.exception "ValueError: time data does not match format")
  | JsonPrim.iso _ =>
    Except.error (PyError.exception "ValueError: time data does not match format")
  | _ =>
    Except.error (PyError.exception "TypeError: strptime argument must be str")

def JsonPrim.asInt : JsonPrim → Except PyError Int
  | JsonPrim.int n => Except.ok n
  | _ => Except.error (PyError.exception "TypeError: an int was expected here")

def JsonPrim.asStr : JsonPrim → Except PyError String
  | JsonPrim.str s => Except.ok s
  | _ => Except.error (PyError.exception "TypeError: a str was expected here")

def JsonPrim.asIntList : JsonPrim → Except PyError (List Int)
  | JsonPrim.intList ns => Except.ok ns
  | _ => Except.error (PyError.exception "TypeError: a list was expected here")

/-- `Shift.deserialize` applied to a raw JSON dict (src/hungry/shift.py
76-87): each key is looked up (`KeyError` when absent, in source order),
timestamps parsed with `fromisoformat`. -/
def Shift.deserializeJson (o : JsonObj) : Except PyError Shift := do
  let i ← o.get "id"
  let idv ← i.asInt
  let st ← o.get "start"
  let stv ← fromisoformatJson st
  let en ← o.get "end"
  let env ← fromisoformatJson en
  let sta ← o.get "status"
  let stav ← sta.asStr
  let tz ← o.get "time_zone"
  let tzv ← tz.asStr
  let spi ← o.get "starting_point_id"
  let spiv ← spi.asInt
  let spn ← o.get "starting_point_name"
  let spnv ← spn.asStr
  Except.ok ⟨idv, stv, env, stav, tzv, spiv, spnv⟩

/-- `RecurringTimeslot.deserialize` applied to a raw JSON dict
(src/hungry/timeslot.py 104-111). -/
def RecurringTimeslot.deserializeJson (o : JsonObj) :
    Except PyError RecurringTimeslot := do
  let d ← o.get "days"
  let dv ← d.asIntList
  let st ← o.get "start"
  let stv ← strptimeHMJson st
  let en ← o.get "end"
  let env ← strptimeHMJson en
  let mm ← o.get "min_minutes"
  let mmv ← mm.asInt
  Except.ok ⟨dv, stv, env, mmv⟩

/-- The state of one backing file as the loader sees it. -/
inductive FileContent (α : Type) where
  /-- the file does not exist (`FileNotFoundError` is raised by `open`) -/
  | missing
  /-- the file exists but `json.load` raises `json.decoder.JSONDecodeError` -/
  | malformed
  /-- `json.load` succeeds and yields this value -/
  | parsed (v : α)

/-- `Storage._load_shifts` (src/hungry/Storage.py 137-146): the `try` blocks
catch exactly `FileNotFoundError` and `json.decoder.JSONDecodeError`, both
yielding `[]`; any exception raised by `Shift.deserialize` on decoded JSON
(e.g. `KeyError`) is not caught and propagates. -/
def Storage.load_shifts (f : FileContent (List JsonObj)) :
    Except PyError (List Shift) :=
  match f with
  | FileContent.missing => Except.ok []
  | FileContent.malformed => Except.ok []
  | FileContent.parsed objs => objs.mapM Shift.deserializeJson

/-- `Storage._load_recurring_timeslots` (src/hungry/Storage.py 126-135):
same exception structure as `_load_shifts`. -/
def Storage.load_recurring_timeslots (f : FileContent (List JsonObj)) :
    Except PyError (List RecurringTimeslot) :=
  match f with
  | FileContent.missing => Except.ok []
  | FileContent.malformed => Except.ok []
  | FileContent.parsed objs => objs.mapM RecurringTimeslot.deserializeJson

/-- `Storage._load_token_and_cityid` (src/hungry/Storage.py 148-163):
`(None, None, None)` for a missing file or undecodable JSON; the three key
lookups on decoded JSON may raise `KeyError`, which is not caught. -/
def Storage.load_token_and_cityid (f : FileContent JsonObj) :
    Except PyError (Option JsonPrim × Option JsonPrim × Option JsonPrim) :=
  match f with
  | FileContent.missing => Except.ok (none, none, none)
  | FileContent.malformed => Except.ok (none, none, none)
  | FileContent.parsed o => do
    let t ← o.get "token"
    let e ← o.get "expires"
    let c ← o.get "city_id"
    Except.ok (some t, some e, some c)

/-! ## `src/run.py`: startup and cycle steps touching `Storage`

`Storage` (src/hungry/Storage.py) exposes `recurring_timeslots` (lines 47-49)
and `shifts` (lines 51-53) as `@property` getters and defines no setter for
either.  In Python, assigning to a property that has a getter but no setter
raises `AttributeError` — so the two assignment statements in run.py
(`storage.recurring_timeslots = [timeslot]` at line 60 and
`storage.shifts = shifts` at line 82) raise instead of persisting. -/

/-- The in-memory/persisted storage contents relevant to the engine. -/
structure StorageState where
  recurring_timeslots : List RecurringTimeslot
  shifts : List Shift
deriving DecidableEq, Repr

/-- run.py lines 56-60: when the store has no timeslots, the default
catch-all timeslot is constructed (line 59, `get_eternal_timeslot`) and then
line 60 executes `storage.recurring_timeslots = [timeslot]`.  That property
has no setter, so the assignment raises `AttributeError`; this code runs
before the `try` of the polling loop, so the exception is uncaught and the
process dies with the store unchanged.  Returns the timeslot built at line 59
together with the outcome. -/
def startupTimeslotStep (st : StorageState) :
    Option RecurringTimeslot × Except PyError StorageState :=
  if st.recurring_timeslots.length == 0 then
    (some get_eternal_timeslot,
     Except.error (PyError.attributeError
       "property recurring_timeslots of Storage object has no setter"))
  else
    (none, Except.ok st)

/-- run.py lines 66-82, the start of one polling-cycle body:
fetch `shifts` (modelled as the input `fetched`), read `saved_shifts`
(line 74), compute `new_shifts` (line 78), then line 82 executes
`storage.shifts = shifts`.  The `shifts` property has no setter, so the
assignment raises `AttributeError`; the exception is caught by the
cycle-level handler (line 113), so the remaining statements of the cycle
(matching at 85-89, claiming at 93-100, notification at 102-106) do not run
and the storage state is unchanged.  Returns the storage state after the
cycle, the computed `new_shifts`, and the exception the cycle ended with. -/
def cycleBody (fetched : List Shift) (st : StorageState) :
    StorageState × List Shift × Except PyError Unit :=
  let saved_shifts := st.shifts
  let new_shifts := diffNew fetched saved_shifts
  (st, new_shifts,
   Except.error (PyError.attributeError
     "property shifts of Storage object has no setter"))

/-! ## Concrete sample values (used by witnesses and counterexamples)

January 1, 2024 is a Monday; January 2, 2024 a Tuesday. -/

def dtMon10 : PyDateTime := ⟨2024, 1, 1, 10, 0, 0, 0⟩
def dtMon12 : PyDateTime := ⟨2024, 1, 1, 12, 0, 0, 0⟩
def dtMonLate : PyDateTime := ⟨2024, 1, 1, 23, 59, 30, 0⟩
def dtTue10 : PyDateTime := ⟨2024, 1, 2, 10, 0, 0, 0⟩
def dtTue12 : PyDateTime := ⟨2024, 1, 2, 12, 0, 0, 0⟩

/-- A pending (swap) shift, Monday 10:00-12:00. -/
def sShift1 : Shift :=
  ⟨1, dtMon10, dtMon12, "PENDING", "Europe/Copenhagen", 7, "Copenhagen"⟩

/-- A shift with the same `id` as `sShift1` but every other field different. -/
def sShift1b : Shift :=
  ⟨1, dtTue10, dtTue12, "ASSIGNED", "UTC", 9, "Aarhus"⟩

/-- An unassigned shift, Monday 10:00-12:00. -/
def sShift2 : Shift :=
  ⟨2, dtMon10, dtMon12, "UNASSIGNED", "Europe/Copenhagen", 7, "Copenhagen"⟩

/-- An already-taken shift: `take_shift` raises on it. -/
def sShift3 : Shift :=
  ⟨3, dtMon10, dtMon12, "ASSIGNED", "Europe/Copenhagen", 7, "Copenhagen"⟩

/-- Monday-only window 09:00-17:00, minimum 60 minutes. -/
def sTimeslot : RecurringTimeslot := ⟨[0], ⟨9, 0, 0, 0⟩, ⟨17, 0, 0, 0⟩, 60⟩

/-- All-days window 00:00-23:59 with a 60-minute minimum. -/
def sTimeslotAllDays : RecurringTimeslot :=
  ⟨[0, 1, 2, 3, 4, 5, 6], ⟨0, 0, 0, 0⟩, ⟨23, 59, 0, 0⟩, 60⟩

/-- A timeslot whose start clock carries nonzero seconds (10:00:30). -/
def sTimeslotSec : RecurringTimeslot :=
  ⟨[0], ⟨10, 0, 30, 0⟩, ⟨17, 0, 0, 0⟩, 0⟩

/-! # Helper lemmas -/

theorem shiftMem_iff (xs : List Shift) (s : Shift) :
    shiftMem xs s = true ↔ ∃ x ∈ xs, s.id = x.id := by
  simp [shiftMem, Shift.eq, List.any_eq_true]

theorem shiftMem_false_iff (xs : List Shift) (s : Shift) :
    shiftMem xs s = false ↔ ∀ x ∈ xs, x.id ≠ s.id := by
  rw [← Bool.not_eq_true, shiftMem_iff]
  push_neg
  constructor
  · intro h x hx
    exact fun hxe => h x hx hxe.symm
  · intro h x hx
    exact fun hxe => h x hx hxe.symm

/-- The integer form of the duration check used in
`RecurringTimeslot.is_valid_shift` agrees with the rational reading of the
Python expression `seconds / 60 < min_minutes`. -/
theorem duration_check_eq_rat (a m : Int) :
    (a < 60 * m) ↔ ((a : ℚ) / 60 < (m : ℚ)) := by
  rw [div_lt_iff₀ (by norm_num : (0:ℚ) < 60)]
  constructor
  · intro h
    have h2 : (a : ℚ) < ((60 * m : Int) : ℚ) := by exact_mod_cast h
    push_cast at h2
    linarith
  · intro h
    have h2 : (a : ℚ) < ((60 * m : Int) : ℚ) := by push_cast; linarith
    exact_mod_cast h2

/-- For `s ≤ e` the timedelta seconds component is the sub-day remainder of
the elapsed time in whole seconds. -/
theorem tdSeconds_eq (e s : PyDateTime) (h : s.absUs ≤ e.absUs) :
    tdSeconds e s = (((e.absUs - s.absUs) / 1000000 % 86400 : Nat) : Int) := by
  unfold tdSeconds
  omega

/-! # C1 -/

/-- C1: Shift equality and hashing are keyed solely on the `id` field:
`a == b` iff `a.id == b.id` regardless of the other fields, equal ids give
equal hashes, and list/set membership follows the same identity rule. -/
theorem C1_shift_identity (a b : Shift) (xs : List Shift) :
    (Shift.eq a b = true ↔ a.id = b.id)
    ∧ (a.id = b.id → Shift.pyHash a = Shift.pyHash b)
    ∧ (shiftMem xs a = true ↔ ∃ x ∈ xs, a.id = x.id) :=
  ⟨by simp [Shift.eq], fun h => by simp [Shift.pyHash, h], shiftMem_iff xs a⟩

/-- Witness for C1 at concrete shifts: `sShift1` and `sShift1b` share `id = 1`
but differ in every other field. -/
theorem C1_shift_identity_witness :
    (Shift.eq sShift1 sShift1b = true ↔ sShift1.id = sShift1b.id)
    ∧ (sShift1.id = sShift1b.id → Shift.pyHash sShift1 = Shift.pyHash sShift1b)
    ∧ (shiftMem [sShift1, sShift2] sShift1 = true ↔
        ∃ x ∈ [sShift1, sShift2], sShift1.id = x.id) :=
  C1_shift_identity sShift1 sShift1b [sShift1, sShift2]

/-! # C2 -/

/-- C2: `diffNew current previous` is the identity-based set difference:
a shift is in the result iff it is in `current` and no element of `previous`
has its id; moreover `diffNew X X = ∅` and `diffNew X ∅ = X`. -/
theorem C2_diffNew_is_set_difference (current previous : List Shift) (s : Shift) :
    (s ∈ diffNew current previous ↔ s ∈ current ∧ ∀ p ∈ previous, p.id ≠ s.id)
    ∧ diffNew current current = []
    ∧ diffNew current [] = current := by
  refine ⟨?_, ?_, ?_⟩
  · rw [diffNew, List.mem_filter, Bool.not_eq_true', shiftMem_false_iff]
  · refine List.filter_eq_nil_iff.mpr (fun a ha => ?_)
    simp [Bool.not_eq_true', (shiftMem_iff current a).mpr ⟨a, ha, rfl⟩]
  · exact List.filter_eq_self.mpr (fun a _ => by simp [shiftMem])

/-! # C10 -/

/-- C10: the default catch-all timeslot built by `get_eternal_timeslot` does
not accept every shift with `start < end`: the Monday shift
10:00:00 - 23:59:30 is rejected, because its end time-of-day 23:59:30 exceeds
the window bound 23:59:00. -/
theorem C10_eternal_timeslot_not_catch_all :
    ∃ s e : PyDateTime, s.valid ∧ e.valid ∧ s.absUs < e.absUs ∧
      get_eternal_timeslot.is_valid_shift s e = false :=
  ⟨dtMon10, dtMonLate, by decide, by decide, by decide, by decide⟩

/-! # C7 -/

/-- C7 counterexample: against the all-days window `sTimeslotAllDays`
(minimum 60 minutes), the shift Monday 2024-01-01 10:00 to Tuesday
2024-01-02 10:00 passes the weekday and clock-bound checks, has `start < end`
and a full elapsed time of 1440 minutes ≥ 60, yet `is_valid_shift` rejects
it: the code measures duration with `timedelta.seconds`, which discards the
whole elapsed day. -/
theorem C7_counterexample :
    sTimeslotAllDays.recurring_days.contains dtMon10.weekday = true
    ∧ ¬(dtMon10.time.toUs < sTimeslotAllDays.start.toUs ∨
        dtTue10.time.toUs > sTimeslotAllDays.«end».toUs)
    ∧ dtMon10.absUs < dtTue10.absUs
    ∧ ¬(((dtTue10.absUs - dtMon10.absUs : Nat) : ℚ) / 60000000 <
        (sTimeslotAllDays.min_minutes : ℚ))
    ∧ sTimeslotAllDays.is_valid_shift dtMon10 dtTue10 = false := by
  refine ⟨by decide, by decide, by decide, ?_, by decide⟩
  have h : (dtTue10.absUs - dtMon10.absUs : Nat) = 86400000000 := by decide
  have hm : sTimeslotAllDays.min_minutes = 60 := rfl
  rw [h, hm]
  norm_num

/-- C7 amended: for a shift passing the weekday and clock-bound checks with
`start < end`, `is_valid_shift` rejects exactly when the sub-day remainder of
the elapsed time — `(end - start).seconds`, i.e. the elapsed whole seconds
modulo 24 hours — divided by 60 is less than `min_minutes`; whole elapsed
days are discarded by the duration test.  (The predicate is a total function
of its inputs, hence deterministic.) -/
theorem C7_amended_duration_rule (ts : RecurringTimeslot) (s e : PyDateTime)
    (hday : ts.recurring_days.contains s.weekday = true)
    (hclock : ¬(s.time.toUs < ts.start.toUs ∨ e.time.toUs > ts.«end».toUs))
    (hlt : s.absUs < e.absUs) :
    ts.is_valid_shift s e = false ↔
      ((((e.absUs - s.absUs) / 1000000 % 86400 : Nat) : ℚ) / 60 <
        (ts.min_minutes : ℚ)) := by
  have hts := tdSeconds_eq e s (le_of_lt hlt)
  have hcast : ((((e.absUs - s.absUs) / 1000000 % 86400 : Nat) : Int) : ℚ)
      = (((e.absUs - s.absUs) / 1000000 % 86400 : Nat) : ℚ) := by
    push_cast
    rfl
  have key : (tdSeconds e s < 60 * ts.min_minutes) ↔
      ((((e.absUs - s.absUs) / 1000000 % 86400 : Nat) : ℚ) / 60 <
        (ts.min_minutes : ℚ)) := by
    rw [hts, duration_check_eq_rat, hcast]
  have hmem : s.weekday ∈ ts.recurring_days := by simpa using hday
  rw [RecurringTimeslot.is_valid_shift, if_neg (by simp [hmem]), if_neg hclock]
  by_cases hc : tdSeconds e s < 60 * ts.min_minutes
  · rw [if_pos hc]
    simpa using key.mp hc
  · rw [if_neg hc]
    simpa using fun hq => hc (key.mpr hq)

/-- Witness for C7 amended: Monday 10:00-12:00 against the Monday window
09:00-17:00 with 60-minute minimum. -/
theorem C7_amended_duration_rule_witness :
    (sTimeslot.recurring_days.contains dtMon10.weekday = true
      ∧ ¬(dtMon10.time.toUs < sTimeslot.start.toUs ∨
          dtMon12.time.toUs > sTimeslot.«end».toUs)
      ∧ dtMon10.absUs < dtMon12.absUs)
    ∧ (sTimeslot.is_valid_shift dtMon10 dtMon12 = false ↔
        ((((dtMon12.absUs - dtMon10.absUs) / 1000000 % 86400 : Nat) : ℚ) / 60 <
          (sTimeslot.min_minutes : ℚ))) :=
  ⟨⟨by decide, by decide, by decide⟩,
   C7_amended_duration_rule sTimeslot dtMon10 dtMon12
     (by decide) (by decide) (by decide)⟩

/-! # C6 -/

/-- C6 counterexample: a RecurringTimeslot whose start clock is 10:00:30 does
not survive the round trip — `strftime("%H:%M")` drops the seconds, and
deserialization reads the clock back as 10:00:00. -/
theorem C6_counterexample :
    RecurringTimeslot.deserialize (RecurringTimeslot.serialize sTimeslotSec)
      ≠ sTimeslotSec := by
  decide

/-- C6 amended: Shift serialization round-trips losslessly field-for-field
(ISO-8601 timestamps keep all seven datetime components); RecurringTimeslot
serialization renders its clock bounds with `strftime("%H:%M")` and therefore
round-trips exactly the days, minimum minutes, hours and minutes — lossless
only when both clock bounds carry zero seconds and zero microseconds. -/
theorem C6_amended_roundtrip (s : Shift) (ts : RecurringTimeslot)
    (h1 : ts.start.second = 0) (h2 : ts.start.microsecond = 0)
    (h3 : ts.«end».second = 0) (h4 : ts.«end».microsecond = 0) :
    Shift.deserialize (Shift.serialize s) = s
    ∧ RecurringTimeslot.deserialize (RecurringTimeslot.serialize ts) = ts := by
  constructor
  · rfl
  · obtain ⟨days, ⟨sh, sm, ss, su⟩, ⟨eh, em, es, eu⟩, mm⟩ := ts
    simp only at h1 h2 h3 h4
    subst h1 h2 h3 h4
    rfl

/-- Witness for C6 amended at `sShift1` and `sTimeslot` (whose clock bounds
are 09:00:00.000000 and 17:00:00.000000). -/
theorem C6_amended_roundtrip_witness :
    (sTimeslot.start.second = 0 ∧ sTimeslot.start.microsecond = 0
      ∧ sTimeslot.«end».second = 0 ∧ sTimeslot.«end».microsecond = 0)
    ∧ Shift.deserialize (Shift.serialize sShift1) = sShift1
    ∧ RecurringTimeslot.deserialize (RecurringTimeslot.serialize sTimeslot)
        = sTimeslot :=
  ⟨⟨rfl, rfl, rfl, rfl⟩,
   (C6_amended_roundtrip sShift1 sTimeslot rfl rfl rfl rfl).1,
   (C6_amended_roundtrip sShift1 sTimeslot rfl rfl rfl rfl).2⟩

/-! # C8 -/

/-- C8 counterexample: with `valid_shifts` iterating as
`[sShift3 (ASSIGNED), sShift2 (UNASSIGNED)]`, the claim attempt on `sShift3`
raises, the exception propagates out of the `for` loop, and no claim is ever
attempted for `sShift2`. -/
theorem C8_counterexample :
    (autoClaimAttempts [sShift3, sShift2]).1 = [sShift3]
    ∧ sShift2 ∉ (autoClaimAttempts [sShift3, sShift2]).1
    ∧ (autoClaimAttempts [sShift3, sShift2]).2 =
        some (PyError.exception
          "Shift is not pending or unassigned.Shift status is ASSIGNED") := by
  refine ⟨by decide, by decide, by decide⟩

/-- C8 amended: claims are attempted sequentially; when every claim succeeds
all shifts are attempted, but the first failing claim (e.g. the exception
take_shift raises for a shift that is neither PENDING nor UNASSIGNED)
propagates to the cycle-level handler, so no shift after the first failure is
attempted in that cycle. -/
theorem C8_amended_first_failure_aborts (pre post valids : List Shift)
    (b : Shift) :
    ((∀ x ∈ valids, claimOk x = true) →
      autoClaimAttempts valids = (valids, none))
    ∧ ((∀ x ∈ pre, claimOk x = true) → claimOk b = false →
      ∃ e, autoClaimAttempts (pre ++ b :: post) = (pre ++ [b], some e)) := by
  constructor
  · intro hall
    induction valids with
    | nil => rfl
    | cons s rest ih =>
      have hs : claimOk s = true := hall s (by simp)
      have hok : ∃ a, take_shift s = Except.ok a := by
        unfold claimOk at hs
        cases h : take_shift s with
        | ok a => exact ⟨a, rfl⟩
        | error e => rw [h] at hs; simp at hs
      obtain ⟨a, ha⟩ := hok
      have hrest := ih (fun x hx => hall x (by simp [hx]))
      unfold autoClaimAttempts
      rw [ha, hrest]
  · intro hpre hb
    have hberr : ∃ e, take_shift b = Except.error e := by
      unfold claimOk at hb
      cases h : take_shift b with
      | ok a => rw [h] at hb; simp at hb
      | error e => exact ⟨e, rfl⟩
    obtain ⟨e, he⟩ := hberr
    refine ⟨e, ?_⟩
    induction pre with
    | nil =>
      show autoClaimAttempts (b :: post) = ([b], some e)
      unfold autoClaimAttempts
      rw [he]
    | cons s rest ih =>
      have hs : claimOk s = true := hpre s (by simp)
      have hok : ∃ a, take_shift s = Except.ok a := by
        unfold claimOk at hs
        cases h : take_shift s with
        | ok a => exact ⟨a, rfl⟩
        | error e2 => rw [h] at hs; simp at hs
      obtain ⟨a, ha⟩ := hok
      have hrest := ih (fun x hx => hpre x (by simp [hx]))
      show autoClaimAttempts (s :: (rest ++ b :: post)) = _
      unfold autoClaimAttempts
      rw [ha, hrest]
      rfl

/-- Witness for C8 amended: the all-success case on
`[sShift1, sShift2]` and the failure case with `sShift3` between `sShift2`
and `sShift1`. -/
theorem C8_amended_first_failure_aborts_witness :
    autoClaimAttempts [sShift1, sShift2] = ([sShift1, sShift2], none)
    ∧ ∃ e, autoClaimAttempts ([sShift2] ++ sShift3 :: [sShift1]) =
        ([sShift2] ++ [sShift3], some e) :=
  ⟨(C8_amended_first_failure_aborts [] [] [sShift1, sShift2] sShift3).1
     (by decide),
   (C8_amended_first_failure_aborts [sShift2] [sShift1] [] sShift3).2
     (by decide) (by decide)⟩

/-! # C9 -/

/-- C9 counterexample: a shifts.json holding the syntactically valid JSON
`[ {} ]` — one record with no keys — makes `_load_shifts` raise
`KeyError("id")` inside `Shift.deserialize`; neither `except` clause catches
it (they catch only `FileNotFoundError` and `JSONDecodeError`), so the
exception escapes to the caller. -/
theorem C9_counterexample :
    Storage.load_shifts (FileContent.parsed [([] : JsonObj)]) =
      Except.error (PyError.keyError "id") := rfl

/-- C9 amended: every load returns the empty/absent default for a missing
backing file and for a file whose bytes `json.load` cannot decode; but a file
holding syntactically valid JSON of an unexpected shape (e.g. a record
missing required keys) raises an uncaught exception that escapes to the
caller. -/
theorem C9_amended_load_tolerance :
    Storage.load_shifts FileContent.missing = Except.ok []
    ∧ Storage.load_shifts FileContent.malformed = Except.ok []
    ∧ Storage.load_recurring_timeslots FileContent.missing = Except.ok []
    ∧ Storage.load_recurring_timeslots FileContent.malformed = Except.ok []
    ∧ Storage.load_token_and_cityid FileContent.missing =
        Except.ok (none, none, none)
    ∧ Storage.load_token_and_cityid FileContent.malformed =
        Except.ok (none, none, none)
    ∧ (∃ f e, Storage.load_recurring_timeslots (FileContent.parsed f) =
        Except.error e)
    ∧ (∃ f e, Storage.load_token_and_cityid (FileContent.parsed f) =
        Except.error e) :=
  ⟨rfl, rfl, rfl, rfl, rfl, rfl,
   ⟨[([] : JsonObj)], PyError.keyError "days", rfl⟩,
   ⟨([] : JsonObj), PyError.keyError "token", rfl⟩⟩

/-! # C3 -/

/-- C3 (code bug), Scenario B: with previously-seen = `[sShift1]` and current
fetch = `[sShift1, sShift2]`, the diff correctly yields `[sShift2]`, but the
persist step `storage.shifts = shifts` (run.py line 82) raises
`AttributeError` — `Storage.shifts` is a getter-only property — so after the
cycle the stored shift set is still `[sShift1]`, not the fetched
`[sShift1, sShift2]` required by the claim. -/
theorem C3_persist_step_raises :
    (cycleBody [sShift1, sShift2] ⟨[sTimeslot], [sShift1]⟩).2.1 = [sShift2]
    ∧ (cycleBody [sShift1, sShift2] ⟨[sTimeslot], [sShift1]⟩).1.shifts
        = [sShift1]
    ∧ (cycleBody [sShift1, sShift2] ⟨[sTimeslot], [sShift1]⟩).1.shifts
        ≠ [sShift1, sShift2]
    ∧ (cycleBody [sShift1, sShift2] ⟨[sTimeslot], [sShift1]⟩).2.2 =
        Except.error (PyError.attributeError
          "property shifts of Storage object has no setter") :=
  ⟨by decide, rfl, by decide, rfl⟩

/-! # C5 -/

/-- C5 (code bug): on first run with zero stored timeslots, run.py builds the
default catch-all timeslot (all 7 days, 00:00-23:59, minimum 0) at line 59,
but persisting it at line 60 (`storage.recurring_timeslots = [timeslot]`)
raises `AttributeError` — the property has no setter — outside any handler,
so the store never receives the timeslot and matching never occurs. -/
theorem C5_default_timeslot_not_persisted :
    get_eternal_timeslot =
      ({ recurring_days := [0, 1, 2, 3, 4, 5, 6], start := ⟨0, 0, 0, 0⟩,
         «end» := ⟨23, 59, 0, 0⟩, min_minutes := 0 } : RecurringTimeslot)
    ∧ (startupTimeslotStep ⟨[], []⟩).1 = some get_eternal_timeslot
    ∧ (startupTimeslotStep ⟨[], []⟩).2 =
        Except.error (PyError.attributeError
          "property recurring_timeslots of Storage object has no setter") :=
  ⟨rfl, rfl, rfl⟩

/-! # C4 -/

theorem mem_setAdd_cases (acc : List Shift) (s x : Shift)
    (h : x ∈ setAdd acc s) : x ∈ acc ∨ x = s := by
  unfold setAdd at h
  by_cases hmem : shiftMem acc s = true
  · rw [if_pos hmem] at h
    exact Or.inl h
  · rw [if_neg hmem] at h
    simpa using h

/-- On lists drawn from a pool with set-by-identity semantics, Python
`set.add` behaves as plain insertion: membership afterwards is membership
before or being the added element. -/
theorem mem_setAdd_iff {pool : List Shift} (hinj : idInj pool)
    (acc : List Shift) (hacc : ∀ y ∈ acc, y ∈ pool)
    (s : Shift) (hs : s ∈ pool) (x : Shift) :
    x ∈ setAdd acc s ↔ x ∈ acc ∨ x = s := by
  unfold setAdd
  by_cases hmem : shiftMem acc s = true
  · rw [if_pos hmem]
    obtain ⟨y, hy, hid⟩ := (shiftMem_iff acc s).mp hmem
    have hsy : s = y := hinj s hs y (hacc y hy) hid
    constructor
    · exact Or.inl
    · rintro (h | rfl)
      · exact h
      · exact hsy ▸ hy
  · rw [if_neg hmem]
    simp

/-- Membership after the inner loop of run.py lines 87-89 (one window `w`,
iterating over `cs`, accumulating into `acc`). -/
theorem innerFold_mem (w : RecurringTimeslot) {pool : List Shift}
    (hinj : idInj pool) :
    ∀ (cs : List Shift), (∀ y ∈ cs, y ∈ pool) →
    ∀ (acc : List Shift), (∀ y ∈ acc, y ∈ pool) → ∀ x,
      (x ∈ cs.foldl
        (fun acc2 s =>
          if w.is_valid_shift s.start s.«end» then setAdd acc2 s else acc2)
        acc ↔
        x ∈ acc ∨ (x ∈ cs ∧ w.is_valid_shift x.start x.«end» = true)) := by
  intro cs
  induction cs with
  | nil => intro _ acc _ x; simp
  | cons s rest ih =>
    intro hcs acc hacc x
    have hs : s ∈ pool := hcs s (by simp)
    have hrest : ∀ y ∈ rest, y ∈ pool := fun y hy => hcs y (by simp [hy])
    rw [List.foldl_cons]
    by_cases hv : w.is_valid_shift s.start s.«end» = true
    · rw [if_pos hv]
      have hacc' : ∀ y ∈ setAdd acc s, y ∈ pool := fun y hy =>
        (mem_setAdd_cases acc s y hy).elim (hacc y) (fun h => h ▸ hs)
      rw [ih hrest (setAdd acc s) hacc' x,
        mem_setAdd_iff hinj acc hacc s hs x]
      constructor
      · rintro ((h | rfl) | ⟨h1, h2⟩)
        · exact Or.inl h
        · exact Or.inr ⟨by simp, hv⟩
        · exact Or.inr ⟨by simp [h1], h2⟩
      · rintro (h | ⟨h1, h2⟩)
        · exact Or.inl (Or.inl h)
        · rcases List.mem_cons.mp h1 with rfl | h1'
          · exact Or.inl (Or.inr rfl)
          · exact Or.inr ⟨h1', h2⟩
    · rw [if_neg hv]
      rw [ih hrest acc hacc x]
      constructor
      · rintro (h | ⟨h1, h2⟩)
        · exact Or.inl h
        · exact Or.inr ⟨by simp [h1], h2⟩
      · rintro (h | ⟨h1, h2⟩)
        · exact Or.inl h
        · rcases List.mem_cons.mp h1 with rfl | h1'
          · exact absurd h2 hv
          · exact Or.inr ⟨h1', h2⟩

/-- Membership after the outer loop of run.py lines 86-89 (iterating over
the stored windows). -/
theorem outerFold_mem {candidates : List Shift} (hinj : idInj candidates) :
    ∀ (ws : List RecurringTimeslot),
    ∀ (acc : List Shift), (∀ y ∈ acc, y ∈ candidates) → ∀ x,
      (x ∈ ws.foldl
        (fun acc w =>
          candidates.foldl
            (fun acc2 s =>
              if w.is_valid_shift s.start s.«end» then setAdd acc2 s
              else acc2)
            acc)
        acc ↔
        x ∈ acc ∨ (x ∈ candidates ∧
          ∃ w ∈ ws, w.is_valid_shift x.start x.«end» = true)) := by
  intro ws
  induction ws with
  | nil => intro acc _ x; simp
  | cons w rest ih =>
    intro acc hacc x
    rw [List.foldl_cons]
    have hInner := innerFold_mem w hinj candidates (fun _ h => h) acc hacc
    have hacc' : ∀ y ∈ candidates.foldl
        (fun acc2 s =>
          if w.is_valid_shift s.start s.«end» then setAdd acc2 s else acc2)
        acc, y ∈ candidates := fun y hy =>
      ((hInner y).mp hy).elim (hacc y) (fun h => h.1)
    rw [ih _ hacc' x, hInner x]
    constructor
    · rintro ((h | ⟨h1, h2⟩) | ⟨h1, h2⟩)
      · exact Or.inl h
      · exact Or.inr ⟨h1, w, by simp, h2⟩
      · obtain ⟨w', hw', hvw'⟩ := h2
        exact Or.inr ⟨h1, w', by simp [hw'], hvw'⟩
    · rintro (h | ⟨h1, h2⟩)
      · exact Or.inl (Or.inl h)
      · obtain ⟨w', hw', hvw'⟩ := h2
        rcases List.mem_cons.mp hw' with rfl | hw''
        · exact Or.inl (Or.inr ⟨h1, hvw'⟩)
        · exact Or.inr ⟨h1, w', hw'', hvw'⟩

/-- C4: on a candidate set with identity semantics (as produced by the
Python set algebra), the matching loop computes exactly the subset of
candidates accepted by at least one stored window — logical OR across
preferences — and with no windows the result is empty for every candidate
set. -/
theorem C4_filterValid_or_semantics (windows : List RecurringTimeslot)
    (candidates : List Shift) (hinj : idInj candidates) (x : Shift) :
    (x ∈ filterValid windows candidates ↔
      x ∈ candidates ∧
        ∃ w ∈ windows, w.is_valid_shift x.start x.«end» = true)
    ∧ filterValid [] candidates = [] := by
  constructor
  · rw [filterValid, outerFold_mem hinj windows [] (by simp) x]
    simp
  · rfl

/-- Witness for C4 at a concrete candidate set and window collection. -/
theorem C4_filterValid_or_semantics_witness :
    idInj [sShift1, sShift2]
    ∧ ((sShift1 ∈ filterValid [sTimeslot] [sShift1, sShift2] ↔
        sShift1 ∈ [sShift1, sShift2] ∧
          ∃ w ∈ [sTimeslot],
            w.is_valid_shift sShift1.start sShift1.«end» = true)
      ∧ filterValid [] [sShift1, sShift2] = []) :=
  ⟨by decide,
   C4_filterValid_or_semantics [sTimeslot] [sShift1, sShift2] (by decide)
     sShift1⟩

end HungryShift
